import Mathlib

/-!
Repository reconciler of the Galaxy Terraform provider

A shallow embedding of `galaxy/resource_repository.go`: the resource schema and
the three operations `resourceRepositoryCreate`, `resourceRepositoryRead` and
`resourceRepositoryDelete`.

* The resource data (`*schema.ResourceData`) is a record with one field per
  schema key, typed as the schema declares it; an operation takes the record and
  returns the record it leaves behind.
* The registry client (`*blend4go.GalaxyInstance` with the package
  `repositories`) is an external collaborator: a record of three functions.
  Every call through it is appended to a log, so that "which calls were issued,
  with which arguments" is a statement about the returned log.
* A Go `error` is represented by its message (`err.Error()`), `nil` by `none`.
* A Go slice result is `Option (List _)`: `none` is the nil slice.
-/

namespace Galaxy

/-! ## diag -/

namespace diag

/-- Severity of a diagnostic: `diag.Error` and `diag.Warning`. -/
inductive Severity where
  | Error
  | Warning
  deriving DecidableEq, Repr

/-- One `diag.Diagnostic`; the attribute path is never set by this file. -/
structure Diagnostic where
  Severity : Severity
  Summary : String
  Detail : String
  deriving DecidableEq, Repr

/-- The type `diag.Diagnostics`; the nil value is the empty list. -/
abbrev Diagnostics := List Diagnostic

/-- The call `diag.FromErr(err)`: nil for a nil error, else one error diagnostic
whose summary is the error's message. -/
def FromErr (err : Option String) : Diagnostics :=
  match err with
  | none => []
  | some e => [{ Severity := Severity.Error, Summary := e, Detail := "" }]

/-- The call `diag.Errorf(format, a...)`, given the already formatted message. -/
def Errorf (msg : String) : Diagnostics :=
  [{ Severity := Severity.Error, Summary := msg, Detail := "" }]

/-- The method `Diagnostics.HasError`: some diagnostic has error severity. -/
def HasError (ds : Diagnostics) : Bool :=
  ds.any (fun x => decide (x.Severity = Severity.Error))

end diag

/-! ## fmt -/

namespace fmt

/-- The verb `%v` applied to a `[]string`: the elements separated by one space,
in square brackets (a nil slice prints as `[]`). -/
def vStrings (ids : List String) : String :=
  "[" ++ " ".intercalate ids ++ "]"

/-- The verb `%v` applied to an `int` that is a length: its decimal digits. -/
def vInt (n : Nat) : String :=
  toString n

end fmt

/-! ## schema -/

namespace schema

/-- Value types used by the resource: `schema.TypeString`, `schema.TypeBool`. -/
inductive ValueType where
  | TypeString
  | TypeBool
  deriving DecidableEq, Repr

/-- A declared default value. -/
inductive DefaultValue where
  | str (s : String)
  | bool (b : Bool)
  deriving DecidableEq, Repr

/-- The fields of `schema.Schema` that the resource sets. -/
structure Schema where
  Type_ : ValueType
  Computed : Bool := false
  Required : Bool := false
  Optional : Bool := false
  Default : Option DefaultValue := none
  ConflictsWith : List String := []
  deriving DecidableEq, Repr

end schema

/-- The schema map of `resourceRepository()`, in source order. -/
def resourceRepository : List (String × schema.Schema) :=
  [ ("id", { Type_ := schema.ValueType.TypeString, Computed := true }),
    ("status", { Type_ := schema.ValueType.TypeString, Computed := true }),
    ("name", { Type_ := schema.ValueType.TypeString, Required := true }),
    ("deleted", { Type_ := schema.ValueType.TypeBool, Computed := true }),
    ("ctx_rev", { Type_ := schema.ValueType.TypeString, Computed := true }),
    ("error_message", { Type_ := schema.ValueType.TypeString, Computed := true }),
    ("installed_changeset_revision", { Type_ := schema.ValueType.TypeString, Computed := true }),
    ("tool_shed", { Type_ := schema.ValueType.TypeString, Required := true }),
    ("dist_to_shed", { Type_ := schema.ValueType.TypeBool, Computed := true }),
    ("url", { Type_ := schema.ValueType.TypeString, Computed := true }),
    ("uninstalled", { Type_ := schema.ValueType.TypeBool, Computed := true }),
    ("owner", { Type_ := schema.ValueType.TypeString, Required := true }),
    ("changeset_revision", { Type_ := schema.ValueType.TypeString, Optional := true }),
    ("include_datatypes", { Type_ := schema.ValueType.TypeBool, Computed := true }),
    ("latest_installable_revision", { Type_ := schema.ValueType.TypeString, Computed := true }),
    ("revision_update", { Type_ := schema.ValueType.TypeString, Computed := true }),
    ("revision_upgrade", { Type_ := schema.ValueType.TypeString, Computed := true }),
    ("repository_deprecated", { Type_ := schema.ValueType.TypeString, Computed := true }),
    ("install_tool_dependencies",
      { Type_ := schema.ValueType.TypeBool, Optional := true, Default := some (schema.DefaultValue.bool false) }),
    ("install_repository_dependencies",
      { Type_ := schema.ValueType.TypeBool, Optional := true, Default := some (schema.DefaultValue.bool false) }),
    ("install_resolver_dependencies",
      { Type_ := schema.ValueType.TypeBool, Optional := true, Default := some (schema.DefaultValue.bool false) }),
    ("tool_panel_section_id",
      { Type_ := schema.ValueType.TypeString, Optional := true,
        ConflictsWith := ["tool_panel_section_id", "new_tool_panel_section_label"] }),
    ("new_tool_panel_section_label",
      { Type_ := schema.ValueType.TypeString, Optional := true, Default := some (schema.DefaultValue.str ""),
        ConflictsWith := ["tool_panel_section_id", "new_tool_panel_section_label"] }),
    ("remove_from_disk",
      { Type_ := schema.ValueType.TypeBool, Optional := true, Default := some (schema.DefaultValue.bool true) }) ]

/-- The resource data `d`: one field per schema key, with the declared type, so
that `d.Get("k").(string)` is the field `k`. -/
structure ResourceData where
  id : String
  status : String
  name : String
  deleted : Bool
  ctx_rev : String
  error_message : String
  installed_changeset_revision : String
  tool_shed : String
  dist_to_shed : Bool
  url : String
  uninstalled : Bool
  owner : String
  changeset_revision : String
  include_datatypes : Bool
  latest_installable_revision : String
  revision_update : String
  revision_upgrade : String
  repository_deprecated : String
  install_tool_dependencies : Bool
  install_repository_dependencies : Bool
  install_resolver_dependencies : Bool
  tool_panel_section_id : String
  new_tool_panel_section_label : String
  remove_from_disk : Bool
  deriving DecidableEq, Repr

/-! ## The registry client -/

/-- One registry-side result (`repositories.Repository`): the fields that the
spec's data model lists for it. -/
structure Repository where
  id : String
  status : String
  deleted : Bool
  ctx_rev : String
  error_message : String
  installed_changeset_revision : String
  dist_to_shed : Bool
  url : String
  uninstalled : Bool
  include_datatypes : Bool
  latest_installable_revision : String
  revision_update : String
  revision_upgrade : String
  repository_deprecated : String
  deriving DecidableEq, Repr

/-- The method `GetID` of a result. -/
def Repository.GetID (r : Repository) : String :=
  r.id

/-- The registry behind `*blend4go.GalaxyInstance`: what each of the three
network calls answers. A result comes with an error that is nil on success. -/
structure GalaxyInstance where
  install : String → String → String → String → Bool → Bool → Bool → String → String →
    Option (List Repository) × Option String
  get : String → Repository × Option String
  uninstallID : String → Bool → Option String

/-- A call issued to the registry client, with its arguments in order. -/
inductive Call where
  | Install (toolShed owner name revision : String)
      (installToolDependencies installRepositoryDependencies installResolverDependencies : Bool)
      (toolPanelSectionID newToolPanelSectionLabel : String)
  | Get (id : String)
  | UninstallID (id : String) (removeFromDisk : Bool)
  deriving DecidableEq, Repr

/-- What an operation has done so far besides returning: the registry calls it
issued and the results it handed to the projection, both in order. -/
structure Trace where
  calls : List Call
  projected : List Repository
  deriving DecidableEq, Repr

/-- The trace before an operation starts. -/
def Trace.empty : Trace :=
  { calls := [], projected := [] }

namespace repositories

/-- The call `repositories.Install(ctx, g, ...)`: answered by the registry and
recorded. -/
def Install (g : GalaxyInstance) (toolShed owner name revision : String)
    (installToolDependencies installRepositoryDependencies installResolverDependencies : Bool)
    (toolPanelSectionID newToolPanelSectionLabel : String) (t : Trace) :
    (Option (List Repository) × Option String) × Trace :=
  (g.install toolShed owner name revision installToolDependencies
      installRepositoryDependencies installResolverDependencies
      toolPanelSectionID newToolPanelSectionLabel,
    { t with calls := t.calls ++ [Call.Install toolShed owner name revision
        installToolDependencies installRepositoryDependencies installResolverDependencies
        toolPanelSectionID newToolPanelSectionLabel] })

/-- The call `repositories.Get(ctx, g, id)`: answered by the registry and
recorded. -/
def Get (g : GalaxyInstance) (id : String) (t : Trace) :
    (Repository × Option String) × Trace :=
  (g.get id, { t with calls := t.calls ++ [Call.Get id] })

/-- The call `repositories.UninstallID(ctx, g, id, removeFromDisk)`: answered by
the registry and recorded. -/
def UninstallID (g : GalaxyInstance) (id : String) (removeFromDisk : Bool) (t : Trace) :
    Option String × Trace :=
  (g.uninstallID id removeFromDisk,
    { t with calls := t.calls ++ [Call.UninstallID id removeFromDisk] })

end repositories

/-! ## The projection -/

/-- The shape of `toSchema(repo, d)`: it returns diagnostics and leaves a
resource data behind. -/
abbrev Projection := Repository → ResourceData → diag.Diagnostics × ResourceData

/-- The call `toSchema(repo, d)` through a given projection, recorded. -/
def callToSchema (proj : Projection) (repo : Repository) (d : ResourceData) (t : Trace) :
    (diag.Diagnostics × ResourceData) × Trace :=
  (proj repo d, { t with projected := t.projected ++ [repo] })

/-- Modelled from the spec: the helper `toSchema` of this package is not among
the sources. Section 4.3 describes it as a one-way mapping from a result to the
computed fields of the model (the fourteen of section 6), total, writing
nothing else, and never failing; the desired-state fields are left untouched. -/
def toSchema : Projection := fun repo d =>
  ([], { d with
      id := repo.GetID
      status := repo.status
      deleted := repo.deleted
      ctx_rev := repo.ctx_rev
      error_message := repo.error_message
      installed_changeset_revision := repo.installed_changeset_revision
      dist_to_shed := repo.dist_to_shed
      url := repo.url
      uninstalled := repo.uninstalled
      include_datatypes := repo.include_datatypes
      latest_installable_revision := repo.latest_installable_revision
      revision_update := repo.revision_update
      revision_upgrade := repo.revision_upgrade
      repository_deprecated := repo.repository_deprecated })

/-! ## The operations -/

/-- What an operation leaves behind: the diagnostics it returns, the resource
data after it, and its trace. -/
structure Outcome where
  diags : diag.Diagnostics
  data : ResourceData
  trace : Trace
  deriving DecidableEq, Repr

/-- Length of a slice result: `len(repos)`, zero for nil. -/
def len (repos : Option (List Repository)) : Nat :=
  match repos with
  | none => 0
  | some l => l.length

/-- The loop `for _, repo := range repos { ids = append(ids, repo.GetID()) }`. -/
def collectIDs (repos : List Repository) : List String :=
  repos.foldl (fun ids repo => ids ++ [repo.GetID]) []

/-- The function `resourceRepositoryCreate`. -/
def resourceRepositoryCreate (proj : Projection) (g : GalaxyInstance) (d : ResourceData) :
    Outcome :=
  let toolShed := d.tool_shed
  let owner := d.owner
  let name := d.name
  let revision := d.changeset_revision
  match repositories.Install g toolShed owner name revision
      d.install_tool_dependencies d.install_repository_dependencies
      d.install_resolver_dependencies d.tool_panel_section_id
      d.new_tool_panel_section_label Trace.empty with
  | ((repos, none), t) =>
    match repos with
    | none =>
      { diags := diag.Errorf ("Repository " ++ toolShed ++ "/" ++ owner ++ "/" ++ name ++ "/"
          ++ revision ++ " already installed"), data := d, trace := t }
    | some [] =>
      { diags := diag.Errorf ("Repository " ++ toolShed ++ "/" ++ owner ++ "/" ++ name ++ "/"
          ++ revision ++ " already installed"), data := d, trace := t }
    | some (repo0 :: rest) =>
      let diags : diag.Diagnostics :=
        if len repos > 1 then
          let ids := collectIDs (repo0 :: rest)
          [{ Severity := diag.Severity.Error,
             Summary := "Unexpected number of repositories created: " ++ fmt.vInt (len repos),
             Detail := "Repository IDs: " ++ fmt.vStrings ids }]
        else []
      match callToSchema proj repo0 d t with
      | ((ds, d'), t') => { diags := diags ++ ds, data := d', trace := t' }
  | ((_, some err), t) => { diags := diag.FromErr (some err), data := d, trace := t }

/-- The function `resourceRepositoryRead`. -/
def resourceRepositoryRead (proj : Projection) (g : GalaxyInstance) (d : ResourceData) :
    Outcome :=
  match repositories.Get g d.id Trace.empty with
  | ((repo, none), t) =>
    match callToSchema proj repo d t with
    | ((ds, d'), t') => { diags := ds, data := d', trace := t' }
  | ((_, some err), t) => { diags := diag.FromErr (some err), data := d, trace := t }

/-- The function `resourceRepositoryDelete`. -/
def resourceRepositoryDelete (g : GalaxyInstance) (d : ResourceData) : Outcome :=
  match repositories.UninstallID g d.id d.remove_from_disk Trace.empty with
  | (none, t) => { diags := [], data := d, trace := t }
  | (some err, t) => { diags := diag.FromErr (some err), data := d, trace := t }

/-- What the registry answers to the Install call of a request. -/
def installAnswer (g : GalaxyInstance) (d : ResourceData) :
    Option (List Repository) × Option String :=
  g.install d.tool_shed d.owner d.name d.changeset_revision
    d.install_tool_dependencies d.install_repository_dependencies
    d.install_resolver_dependencies d.tool_panel_section_id
    d.new_tool_panel_section_label

/-! ## Concrete inputs -/

/-- A registry that gives the same three answers whatever it is asked. -/
def constRegistry (installed : Option (List Repository) × Option String)
    (got : Repository × Option String) (uninstalled : Option String) : GalaxyInstance :=
  { install := fun _ _ _ _ _ _ _ _ _ => installed
    get := fun _ => got
    uninstallID := fun _ _ => uninstalled }

/-- An installed result with a given identifier. -/
def sampleRepo (id : String) : Repository :=
  { id := id
    status := "Installed"
    deleted := false
    ctx_rev := "11"
    error_message := ""
    installed_changeset_revision := "e7b2202befea"
    dist_to_shed := false
    url := "/api/tool_shed_repositories/" ++ id
    uninstalled := false
    include_datatypes := false
    latest_installable_revision := "e7b2202befea"
    revision_update := "False"
    revision_upgrade := "False"
    repository_deprecated := "False" }

/-- A fresh request for `devteam/fastqc` with the given placement fields and
disk-removal flag; nothing computed is known yet. -/
def sampleRequest (sectionID label : String) (removeFromDisk : Bool) : ResourceData :=
  { id := ""
    status := ""
    name := "fastqc"
    deleted := false
    ctx_rev := ""
    error_message := ""
    installed_changeset_revision := ""
    tool_shed := "toolshed.example.org"
    dist_to_shed := false
    url := ""
    uninstalled := false
    owner := "devteam"
    changeset_revision := ""
    include_datatypes := false
    latest_installable_revision := ""
    revision_update := ""
    revision_upgrade := ""
    repository_deprecated := ""
    install_tool_dependencies := false
    install_repository_dependencies := false
    install_resolver_dependencies := false
    tool_panel_section_id := sectionID
    new_tool_panel_section_label := label
    remove_from_disk := removeFromDisk }

/-! ## The host: configuration and validation

`resourceRepositoryCreate` is the `CreateContext` of the resource. The host
validates a configuration against the schema before it plans and applies it,
and the schema's `ConflictsWith` lists are evaluated there, by the SDK. -/

/-- The configuration of one resource block as the host hands it over: the
required arguments, and for each optional argument the value written, `none`
when the block leaves it out. Computed-only keys cannot be configured, and the
values are known. -/
structure ResourceConfig where
  name : String
  tool_shed : String
  owner : String
  changeset_revision : Option String
  install_tool_dependencies : Option Bool
  install_repository_dependencies : Option Bool
  install_resolver_dependencies : Option Bool
  tool_panel_section_id : Option String
  new_tool_panel_section_label : Option String
  remove_from_disk : Option Bool
  deriving DecidableEq, Repr

/-- The second result of `c.Get(k)`: whether the configuration sets key `k`. -/
def ResourceConfig.isSet (c : ResourceConfig) (k : String) : Bool :=
  if k = "name" then true
  else if k = "tool_shed" then true
  else if k = "owner" then true
  else if k = "changeset_revision" then c.changeset_revision.isSome
  else if k = "install_tool_dependencies" then c.install_tool_dependencies.isSome
  else if k = "install_repository_dependencies" then c.install_repository_dependencies.isSome
  else if k = "install_resolver_dependencies" then c.install_resolver_dependencies.isSome
  else if k = "tool_panel_section_id" then c.tool_panel_section_id.isSome
  else if k = "new_tool_panel_section_label" then c.new_tool_panel_section_label.isSome
  else if k = "remove_from_disk" then c.remove_from_disk.isSome
  else false

/-- The verb `%q` applied to a schema key (letters and underscores only): the
key between double quotes. -/
def fmt.vq (k : String) : String :=
  String.singleton (Char.ofNat 34) ++ k ++ String.singleton (Char.ofNat 34)

/-- The SDK's `validateConflictingAttributes(k, schema, c)`, as a loop over
`schema.ConflictsWith`: the error for the first listed key that the
configuration sets, nil when it sets none of them. -/
def schema.validateConflictingAttributes (k : String) (isSet : String → Bool) :
    List String → Option String
  | [] => none
  | conflictingKey :: rest =>
    if isSet conflictingKey then some (fmt.vq k ++ ": conflicts with " ++ conflictingKey)
    else schema.validateConflictingAttributes k isSet rest

/-- The steps of the SDK's `schemaMap.validate(k, schema, c)` that a well-typed,
known configuration of this resource can reach: a key that is not set yields
nothing, a set key is checked against its `ConflictsWith` list. -/
def schema.validate (k : String) (s : schema.Schema) (isSet : String → Bool) :
    diag.Diagnostics :=
  if isSet k then
    match schema.validateConflictingAttributes k isSet s.ConflictsWith with
    | some err =>
      [{ Severity := diag.Severity.Error, Summary := "Conflicting configuration arguments",
         Detail := err }]
    | none => []
  else []

/-- The SDK's `schemaMap.Validate(c)`: the diagnostics of all keys. Go ranges
over the map in no fixed order; here the keys are taken in source order. -/
def schema.Validate (isSet : String → Bool) : List (String × schema.Schema) → diag.Diagnostics
  | [] => []
  | (k, s) :: rest => schema.validate k s isSet ++ schema.Validate isSet rest

/-- The `Default` the schema declares for a string key, the zero value when it
declares none. -/
def defaultString (key : String) : String :=
  match resourceRepository.lookup key with
  | some s =>
    match s.Default with
    | some (schema.DefaultValue.str v) => v
    | _ => ""
  | none => ""

/-- The `Default` the schema declares for a boolean key, the zero value when it
declares none. -/
def defaultBool (key : String) : Bool :=
  match resourceRepository.lookup key with
  | some s =>
    match s.Default with
    | some (schema.DefaultValue.bool v) => v
    | _ => false
  | none => false

/-- The resource data Create receives for a configuration: `d.Get` of an
argument is the value written, else the schema's default, else the zero value;
the computed fields are not known yet. -/
def planned (c : ResourceConfig) : ResourceData :=
  { id := ""
    status := ""
    name := c.name
    deleted := false
    ctx_rev := ""
    error_message := ""
    installed_changeset_revision := ""
    tool_shed := c.tool_shed
    dist_to_shed := false
    url := ""
    uninstalled := false
    owner := c.owner
    changeset_revision := c.changeset_revision.getD (defaultString "changeset_revision")
    include_datatypes := false
    latest_installable_revision := ""
    revision_update := ""
    revision_upgrade := ""
    repository_deprecated := ""
    install_tool_dependencies :=
      c.install_tool_dependencies.getD (defaultBool "install_tool_dependencies")
    install_repository_dependencies :=
      c.install_repository_dependencies.getD (defaultBool "install_repository_dependencies")
    install_resolver_dependencies :=
      c.install_resolver_dependencies.getD (defaultBool "install_resolver_dependencies")
    tool_panel_section_id := c.tool_panel_section_id.getD (defaultString "tool_panel_section_id")
    new_tool_panel_section_label :=
      c.new_tool_panel_section_label.getD (defaultString "new_tool_panel_section_label")
    remove_from_disk := c.remove_from_disk.getD (defaultBool "remove_from_disk") }

/-- Create as the host runs it for a configuration: the configuration is
validated against the schema of `resourceRepository()`, and the `CreateContext`
of the resource is invoked only when validation reports no error. -/
def applyCreate (proj : Projection) (g : GalaxyInstance) (c : ResourceConfig) : Outcome :=
  let diags := schema.Validate c.isSet resourceRepository
  if diag.HasError diags then { diags := diags, data := planned c, trace := Trace.empty }
  else resourceRepositoryCreate proj g (planned c)

/-- A configuration for `devteam/fastqc` that sets nothing optional but the two
placement arguments as given. -/
def sampleConfig (sectionID label : Option String) : ResourceConfig :=
  { name := "fastqc"
    tool_shed := "toolshed.example.org"
    owner := "devteam"
    changeset_revision := none
    install_tool_dependencies := none
    install_repository_dependencies := none
    install_resolver_dependencies := none
    tool_panel_section_id := sectionID
    new_tool_panel_section_label := label
    remove_from_disk := none }

/-! ## Unfolding lemmas -/

/-- The identifier loop collects the identifiers in the order of the results. -/
theorem collectIDs_go (repos : List Repository) (acc : List String) :
    repos.foldl (fun ids repo => ids ++ [repo.GetID]) acc
      = acc ++ repos.map Repository.GetID := by
  induction repos generalizing acc with
  | nil => simp
  | cons r rs ih => simp [List.foldl, ih]

/-- The identifier loop is the map of `GetID`. -/
theorem collectIDs_eq_map (repos : List Repository) :
    collectIDs repos = repos.map Repository.GetID := by
  simp [collectIDs, collectIDs_go]

/-- The one Install call that Create issues for a request. -/
def createTrace (d : ResourceData) (projected : List Repository) : Trace :=
  { calls := [Call.Install d.tool_shed d.owner d.name d.changeset_revision
      d.install_tool_dependencies d.install_repository_dependencies
      d.install_resolver_dependencies d.tool_panel_section_id
      d.new_tool_panel_section_label],
    projected := projected }

/-- Create when Install returns an error. -/
theorem create_of_error (proj : Projection) (g : GalaxyInstance) (d : ResourceData)
    (repos : Option (List Repository)) (e : String)
    (h : installAnswer g d = (repos, some e)) :
    resourceRepositoryCreate proj g d
      = { diags := [{ Severity := diag.Severity.Error, Summary := e, Detail := "" }],
          data := d, trace := createTrace d [] } := by
  unfold installAnswer at h
  simp [resourceRepositoryCreate, repositories.Install, h, diag.FromErr, createTrace,
    Trace.empty]

/-- Create when Install succeeds with a nil or empty list. -/
theorem create_of_nothing (proj : Projection) (g : GalaxyInstance) (d : ResourceData)
    (repos : Option (List Repository)) (hr : repos = none ∨ repos = some [])
    (h : installAnswer g d = (repos, none)) :
    resourceRepositoryCreate proj g d
      = { diags := [{ Severity := diag.Severity.Error,
                      Summary := "Repository " ++ d.tool_shed ++ "/" ++ d.owner ++ "/" ++ d.name
                        ++ "/" ++ d.changeset_revision ++ " already installed",
                      Detail := "" }],
          data := d, trace := createTrace d [] } := by
  unfold installAnswer at h
  rcases hr with hr | hr <;> subst hr <;>
    simp [resourceRepositoryCreate, repositories.Install, h, diag.Errorf, createTrace,
      Trace.empty]

/-- Create when Install succeeds with exactly one result. -/
theorem create_of_one (proj : Projection) (g : GalaxyInstance) (d : ResourceData)
    (R : Repository) (h : installAnswer g d = (some [R], none)) :
    resourceRepositoryCreate proj g d
      = { diags := (proj R d).1, data := (proj R d).2, trace := createTrace d [R] } := by
  unfold installAnswer at h
  simp [resourceRepositoryCreate, repositories.Install, h, callToSchema, createTrace,
    Trace.empty, len]

/-- Create when Install succeeds with two or more results. -/
theorem create_of_many (proj : Projection) (g : GalaxyInstance) (d : ResourceData)
    (R1 R2 : Repository) (rest : List Repository)
    (h : installAnswer g d = (some (R1 :: R2 :: rest), none)) :
    resourceRepositoryCreate proj g d
      = { diags :=
            { Severity := diag.Severity.Error,
              Summary := "Unexpected number of repositories created: "
                ++ toString (rest.length + 2),
              Detail := "Repository IDs: [" ++ " ".intercalate
                ((R1 :: R2 :: rest).map Repository.GetID) ++ "]" } :: (proj R1 d).1,
          data := (proj R1 d).2, trace := createTrace d [R1] } := by
  unfold installAnswer at h
  have hs : "Repository IDs: [" = "Repository IDs: " ++ "[" := by decide
  simp [resourceRepositoryCreate, repositories.Install, h, callToSchema, createTrace,
    Trace.empty, len, collectIDs_eq_map, fmt.vInt, fmt.vStrings]
  rw [hs]
  simp only [String.append_assoc]

/-- Create issues its one Install call whatever the request and the answer. -/
theorem create_calls (proj : Projection) (g : GalaxyInstance) (d : ResourceData) :
    (resourceRepositoryCreate proj g d).trace.calls = (createTrace d []).calls := by
  rcases hA : installAnswer g d with ⟨repos, err⟩
  cases err with
  | some e => rw [create_of_error proj g d repos e hA]
  | none =>
    match repos, hA with
    | none, hA => rw [create_of_nothing proj g d none (Or.inl rfl) hA]
    | some [], hA => rw [create_of_nothing proj g d (some []) (Or.inr rfl) hA]
    | some [R], hA => rw [create_of_one proj g d R hA]; rfl
    | some (R1 :: R2 :: rest), hA => rw [create_of_many proj g d R1 R2 rest hA]; rfl

/-- Read when Get returns an error. -/
theorem read_of_error (proj : Projection) (g : GalaxyInstance) (d : ResourceData)
    (R : Repository) (e : String) (h : g.get d.id = (R, some e)) :
    resourceRepositoryRead proj g d
      = { diags := [{ Severity := diag.Severity.Error, Summary := e, Detail := "" }],
          data := d, trace := { calls := [Call.Get d.id], projected := [] } } := by
  simp [resourceRepositoryRead, repositories.Get, h, diag.FromErr, Trace.empty]

/-- Read when Get succeeds. -/
theorem read_of_success (proj : Projection) (g : GalaxyInstance) (d : ResourceData)
    (R : Repository) (h : g.get d.id = (R, none)) :
    resourceRepositoryRead proj g d
      = { diags := (proj R d).1, data := (proj R d).2,
          trace := { calls := [Call.Get d.id], projected := [R] } } := by
  simp [resourceRepositoryRead, repositories.Get, h, callToSchema, Trace.empty]

/-- Delete when Uninstall succeeds. -/
theorem delete_of_success (g : GalaxyInstance) (d : ResourceData)
    (h : g.uninstallID d.id d.remove_from_disk = none) :
    resourceRepositoryDelete g d
      = { diags := [], data := d,
          trace := { calls := [Call.UninstallID d.id d.remove_from_disk], projected := [] } } := by
  simp [resourceRepositoryDelete, repositories.UninstallID, h, Trace.empty]

/-- Delete when Uninstall returns an error. -/
theorem delete_of_error (g : GalaxyInstance) (d : ResourceData) (e : String)
    (h : g.uninstallID d.id d.remove_from_disk = some e) :
    resourceRepositoryDelete g d
      = { diags := [{ Severity := diag.Severity.Error, Summary := e, Detail := "" }], data := d,
          trace := { calls := [Call.UninstallID d.id d.remove_from_disk], projected := [] } } := by
  simp [resourceRepositoryDelete, repositories.UninstallID, h, diag.FromErr, Trace.empty]

/-- Projecting the same result a second time changes nothing. -/
theorem toSchema_idem (R : Repository) (d : ResourceData) :
    (toSchema R (toSchema R d).2).2 = (toSchema R d).2 := by
  simp [toSchema]

/-- The projection writes the identifier of the result. -/
theorem toSchema_id (R : Repository) (d : ResourceData) :
    (toSchema R d).2.id = R.id := by
  simp [toSchema, Repository.GetID]

/-- Validation of a configuration whose two placement arguments both reach
Create non-empty: both keys are set, and each is refused, being checked against
a list that starts with `tool_panel_section_id`. -/
theorem validate_both_placements (c : ResourceConfig)
    (h1 : (planned c).tool_panel_section_id ≠ "")
    (h2 : (planned c).new_tool_panel_section_label ≠ "") :
    schema.Validate c.isSet resourceRepository
      = [{ Severity := diag.Severity.Error, Summary := "Conflicting configuration arguments",
           Detail := fmt.vq "tool_panel_section_id"
             ++ ": conflicts with tool_panel_section_id" },
         { Severity := diag.Severity.Error, Summary := "Conflicting configuration arguments",
           Detail := fmt.vq "new_tool_panel_section_label"
             ++ ": conflicts with tool_panel_section_id" }] := by
  have hd1 : defaultString "tool_panel_section_id" = "" := by decide
  have hd2 : defaultString "new_tool_panel_section_label" = "" := by decide
  have hs1 : c.tool_panel_section_id.isSome = true := by
    cases hc : c.tool_panel_section_id with
    | none => simp [planned, hc, hd1] at h1
    | some v => rfl
  have hs2 : c.new_tool_panel_section_label.isSome = true := by
    cases hc : c.new_tool_panel_section_label with
    | none => simp [planned, hc, hd2] at h2
    | some v => rfl
  simp [schema.Validate, resourceRepository, schema.validate,
    schema.validateConflictingAttributes, ResourceConfig.isSet, hs1, hs2]
  exact ⟨by decide, by decide⟩

/-- A configuration that sets neither placement argument passes validation, and
Create as the host runs it is `resourceRepositoryCreate` on the planned data. -/
theorem applyCreate_of_no_placement (proj : Projection) (g : GalaxyInstance)
    (c : ResourceConfig) (h1 : c.tool_panel_section_id = none)
    (h2 : c.new_tool_panel_section_label = none) :
    applyCreate proj g c = resourceRepositoryCreate proj g (planned c) := by
  have hv : schema.Validate c.isSet resourceRepository = [] := by
    simp [schema.Validate, resourceRepository, schema.validate,
      schema.validateConflictingAttributes, ResourceConfig.isSet, h1, h2]
  simp [applyCreate, hv, diag.HasError]

/-! ## Create: the Install call -/

/-- C1: a Create request in which tool_panel_section_id and
new_tool_panel_section_label are both non-empty fails with a validation error
and issues no Install call. The check is the schema's `ConflictsWith`, applied
to the configuration before the `CreateContext` of the resource is invoked:
the registry client is never called, nothing is projected, no state is written,
and the diagnostics are exactly the error "Conflicting configuration
arguments" for each of the two keys, each reported against
`tool_panel_section_id`, the first key of either list. -/
theorem create_both_placements_rejected (proj : Projection) (g : GalaxyInstance)
    (c : ResourceConfig) (h1 : (planned c).tool_panel_section_id ≠ "")
    (h2 : (planned c).new_tool_panel_section_label ≠ "") :
    (applyCreate proj g c).trace.calls = []
      ∧ (applyCreate proj g c).trace.projected = []
      ∧ (applyCreate proj g c).data = planned c
      ∧ diag.HasError (applyCreate proj g c).diags = true
      ∧ ∀ x : diag.Diagnostic, x ∈ (applyCreate proj g c).diags ↔
          (x = { Severity := diag.Severity.Error,
                 Summary := "Conflicting configuration arguments",
                 Detail := fmt.vq "tool_panel_section_id"
                   ++ ": conflicts with tool_panel_section_id" }
            ∨ x = { Severity := diag.Severity.Error,
                    Summary := "Conflicting configuration arguments",
                    Detail := fmt.vq "new_tool_panel_section_label"
                      ++ ": conflicts with tool_panel_section_id" }) := by
  have hv := validate_both_placements c h1 h2
  have hout : applyCreate proj g c
      = { diags := schema.Validate c.isSet resourceRepository, data := planned c,
          trace := Trace.empty } := by
    simp [applyCreate, hv, diag.HasError]
  rw [hout, hv]
  refine ⟨rfl, rfl, rfl, by simp [diag.HasError], ?_⟩
  intro x
  simp

/-- C1, witness: a configuration that sets section `sec` and label `lab`,
against a registry that would install one result. -/
theorem create_both_placements_rejected_witness :
    (planned (sampleConfig (some "sec") (some "lab"))).tool_panel_section_id ≠ ""
      ∧ (planned (sampleConfig (some "sec") (some "lab"))).new_tool_panel_section_label ≠ ""
      ∧ (applyCreate toSchema
            (constRegistry (some [sampleRepo "a1"], none) (sampleRepo "a1", none) none)
            (sampleConfig (some "sec") (some "lab"))).trace.calls = []
      ∧ diag.HasError (applyCreate toSchema
            (constRegistry (some [sampleRepo "a1"], none) (sampleRepo "a1", none) none)
            (sampleConfig (some "sec") (some "lab"))).diags = true :=
  ⟨by decide, by decide,
    (create_both_placements_rejected toSchema
      (constRegistry (some [sampleRepo "a1"], none) (sampleRepo "a1", none) none)
      (sampleConfig (some "sec") (some "lab")) (by decide) (by decide)).1,
    (create_both_placements_rejected toSchema
      (constRegistry (some [sampleRepo "a1"], none) (sampleRepo "a1", none) none)
      (sampleConfig (some "sec") (some "lab")) (by decide) (by decide)).2.2.2.1⟩

/-- C2: for a request with at most one placement field non-empty, Create issues
exactly one registry call, an Install whose arguments are the request's
tool_shed, owner, name, changeset_revision, the three toggles,
tool_panel_section_id and new_tool_panel_section_label, in this order and
unchanged (an empty revision goes out as the empty string); the log holds no
Get and no Uninstall call. -/
theorem create_issues_exactly_one_install (proj : Projection) (g : GalaxyInstance)
    (d : ResourceData)
    (h : d.tool_panel_section_id = "" ∨ d.new_tool_panel_section_label = "") :
    (resourceRepositoryCreate proj g d).trace.calls
        = [Call.Install d.tool_shed d.owner d.name d.changeset_revision
            d.install_tool_dependencies d.install_repository_dependencies
            d.install_resolver_dependencies d.tool_panel_section_id
            d.new_tool_panel_section_label]
      ∧ (d.changeset_revision = "" →
          (resourceRepositoryCreate proj g d).trace.calls
            = [Call.Install d.tool_shed d.owner d.name ""
                d.install_tool_dependencies d.install_repository_dependencies
                d.install_resolver_dependencies d.tool_panel_section_id
                d.new_tool_panel_section_label])
      ∧ (∀ id, Call.Get id ∉ (resourceRepositoryCreate proj g d).trace.calls)
      ∧ (∀ id b, Call.UninstallID id b ∉ (resourceRepositoryCreate proj g d).trace.calls) := by
  have _ := h
  have hc := create_calls proj g d
  refine ⟨hc, ?_, ?_, ?_⟩
  · intro hr
    rw [hc, createTrace, hr]
  · intro id
    rw [hc]
    simp [createTrace]
  · intro id b
    rw [hc]
    simp [createTrace]

/-- C2, witness: the request for `devteam/fastqc` with no revision and no
placement. -/
theorem create_issues_exactly_one_install_witness :
    ((sampleRequest "" "" true).tool_panel_section_id = ""
        ∨ (sampleRequest "" "" true).new_tool_panel_section_label = "")
      ∧ (resourceRepositoryCreate toSchema
            (constRegistry (some [sampleRepo "a1"], none) (sampleRepo "a1", none) none)
            (sampleRequest "" "" true)).trace.calls
          = [Call.Install "toolshed.example.org" "devteam" "fastqc" "" false false false
              "" ""] :=
  ⟨Or.inl rfl,
    (create_issues_exactly_one_install toSchema
      (constRegistry (some [sampleRepo "a1"], none) (sampleRepo "a1", none) none)
      (sampleRequest "" "" true) (Or.inl rfl)).1⟩

/-! ## Create: interpreting the answer -/

/-- C3: when Install succeeds with a nil or empty list, Create returns exactly
one error diagnostic whose message is "Repository h/o/n/r already installed"
for the request's tool_shed h, owner o, name n and changeset_revision r; the
projection is not invoked and the resource data is unchanged. -/
theorem create_empty_result_already_installed (proj : Projection) (g : GalaxyInstance)
    (d : ResourceData) (repos : Option (List Repository))
    (hr : repos = none ∨ repos = some []) (h : installAnswer g d = (repos, none)) :
    (resourceRepositoryCreate proj g d).diags
        = [{ Severity := diag.Severity.Error,
             Summary := "Repository " ++ d.tool_shed ++ "/" ++ d.owner ++ "/" ++ d.name ++ "/"
               ++ d.changeset_revision ++ " already installed",
             Detail := "" }]
      ∧ (resourceRepositoryCreate proj g d).trace.projected = []
      ∧ (resourceRepositoryCreate proj g d).data = d := by
  rw [create_of_nothing proj g d repos hr h]
  exact ⟨rfl, rfl, rfl⟩

/-- C3, witness: the registry answers the empty list to the `devteam/fastqc`
request. -/
theorem create_empty_result_already_installed_witness :
    installAnswer (constRegistry (some [], none) (sampleRepo "a1", none) none)
        (sampleRequest "" "" true) = (some [], none)
      ∧ (resourceRepositoryCreate toSchema
            (constRegistry (some [], none) (sampleRepo "a1", none) none)
            (sampleRequest "" "" true)).diags
          = [{ Severity := diag.Severity.Error,
               Summary := "Repository toolshed.example.org/devteam/fastqc/ already installed",
               Detail := "" }]
      ∧ (resourceRepositoryCreate toSchema
            (constRegistry (some [], none) (sampleRepo "a1", none) none)
            (sampleRequest "" "" true)).data = sampleRequest "" "" true :=
  ⟨rfl,
    (create_empty_result_already_installed toSchema
      (constRegistry (some [], none) (sampleRepo "a1", none) none)
      (sampleRequest "" "" true) (some []) (Or.inr rfl) rfl).1,
    (create_empty_result_already_installed toSchema
      (constRegistry (some [], none) (sampleRepo "a1", none) none)
      (sampleRequest "" "" true) (some []) (Or.inr rfl) rfl).2.2⟩

/-- C4: when Install succeeds with exactly one result R, the resource data after
Create is the projection of R onto the request's resource data, R is the only
result projected, and, the projection emitting no diagnostics, Create returns
none. -/
theorem create_single_result_projected (proj : Projection) (g : GalaxyInstance)
    (d : ResourceData) (R : Repository) (h : installAnswer g d = (some [R], none))
    (hp : (proj R d).1 = []) :
    (resourceRepositoryCreate proj g d).data = (proj R d).2
      ∧ (resourceRepositoryCreate proj g d).trace.projected = [R]
      ∧ (resourceRepositoryCreate proj g d).diags = [] := by
  rw [create_of_one proj g d R h]
  exact ⟨rfl, rfl, hp⟩

/-- C4, witness: the registry installs the single result `a1`. -/
theorem create_single_result_projected_witness :
    installAnswer (constRegistry (some [sampleRepo "a1"], none) (sampleRepo "a1", none) none)
        (sampleRequest "" "" true) = (some [sampleRepo "a1"], none)
      ∧ (toSchema (sampleRepo "a1") (sampleRequest "" "" true)).1 = []
      ∧ (resourceRepositoryCreate toSchema
            (constRegistry (some [sampleRepo "a1"], none) (sampleRepo "a1", none) none)
            (sampleRequest "" "" true)).data
          = (toSchema (sampleRepo "a1") (sampleRequest "" "" true)).2
      ∧ (resourceRepositoryCreate toSchema
            (constRegistry (some [sampleRepo "a1"], none) (sampleRepo "a1", none) none)
            (sampleRequest "" "" true)).diags = [] :=
  ⟨rfl, rfl,
    (create_single_result_projected toSchema
      (constRegistry (some [sampleRepo "a1"], none) (sampleRepo "a1", none) none)
      (sampleRequest "" "" true) (sampleRepo "a1") rfl rfl).1,
    (create_single_result_projected toSchema
      (constRegistry (some [sampleRepo "a1"], none) (sampleRepo "a1", none) none)
      (sampleRequest "" "" true) (sampleRepo "a1") rfl rfl).2.2⟩

/-- C5: when Install succeeds with two or more results R1, R2, ..., the
resource data after Create is the projection of R1, R1 is the only result
projected, and the returned diagnostics are one diagnostic of Create followed
by those of the projection; its summary reports the number of results and its
detail is "Repository IDs: [id1 id2 ... idk]", the identifiers of all results
in the order returned. -/
theorem create_many_results_first_projected (proj : Projection) (g : GalaxyInstance)
    (d : ResourceData) (R1 R2 : Repository) (rest : List Repository)
    (h : installAnswer g d = (some (R1 :: R2 :: rest), none)) :
    (resourceRepositoryCreate proj g d).data = (proj R1 d).2
      ∧ (resourceRepositoryCreate proj g d).trace.projected = [R1]
      ∧ ∃ own : diag.Diagnostic,
          (resourceRepositoryCreate proj g d).diags = own :: (proj R1 d).1
            ∧ own.Summary = "Unexpected number of repositories created: "
                ++ toString (R1 :: R2 :: rest).length
            ∧ own.Detail = "Repository IDs: [" ++ " ".intercalate
                ((R1 :: R2 :: rest).map Repository.GetID) ++ "]" := by
  rw [create_of_many proj g d R1 R2 rest h]
  exact ⟨rfl, rfl, _, rfl, rfl, rfl⟩

/-- C5, witness: the registry installs the two results `a1` and `b2`. -/
theorem create_many_results_first_projected_witness :
    installAnswer
        (constRegistry (some [sampleRepo "a1", sampleRepo "b2"], none) (sampleRepo "a1", none)
          none)
        (sampleRequest "" "" true) = (some [sampleRepo "a1", sampleRepo "b2"], none)
      ∧ (resourceRepositoryCreate toSchema
            (constRegistry (some [sampleRepo "a1", sampleRepo "b2"], none)
              (sampleRepo "a1", none) none)
            (sampleRequest "" "" true)).data
          = (toSchema (sampleRepo "a1") (sampleRequest "" "" true)).2
      ∧ (resourceRepositoryCreate toSchema
            (constRegistry (some [sampleRepo "a1", sampleRepo "b2"], none)
              (sampleRepo "a1", none) none)
            (sampleRequest "" "" true)).trace.projected = [sampleRepo "a1"] :=
  ⟨rfl,
    (create_many_results_first_projected toSchema
      (constRegistry (some [sampleRepo "a1", sampleRepo "b2"], none) (sampleRepo "a1", none)
        none)
      (sampleRequest "" "" true) (sampleRepo "a1") (sampleRepo "b2") [] rfl).1,
    (create_many_results_first_projected toSchema
      (constRegistry (some [sampleRepo "a1", sampleRepo "b2"], none) (sampleRepo "a1", none)
        none)
      (sampleRequest "" "" true) (sampleRepo "a1") (sampleRepo "b2") [] rfl).2.1⟩

/-- C6, as the code has it: when Install succeeds with more than one result, the
diagnostic Create emits for the ambiguous result set has error severity, so the
returned diagnostics contain an error whatever the projection emits; the state
is still written from the first result. -/
theorem create_many_results_diagnostic_is_error (proj : Projection) (g : GalaxyInstance)
    (d : ResourceData) (R1 R2 : Repository) (rest : List Repository)
    (h : installAnswer g d = (some (R1 :: R2 :: rest), none)) :
    (∃ own : diag.Diagnostic,
        (resourceRepositoryCreate proj g d).diags = own :: (proj R1 d).1
          ∧ own.Severity = diag.Severity.Error)
      ∧ diag.HasError (resourceRepositoryCreate proj g d).diags = true
      ∧ (resourceRepositoryCreate proj g d).data = (proj R1 d).2 := by
  rw [create_of_many proj g d R1 R2 rest h]
  refine ⟨⟨_, rfl, rfl⟩, ?_, rfl⟩
  simp [diag.HasError]

/-- C6, witness: the registry installs the two results `a1` and `b2`. -/
theorem create_many_results_diagnostic_is_error_witness :
    installAnswer
        (constRegistry (some [sampleRepo "a1", sampleRepo "b2"], none) (sampleRepo "a1", none)
          none)
        (sampleRequest "" "" true) = (some [sampleRepo "a1", sampleRepo "b2"], none)
      ∧ diag.HasError (resourceRepositoryCreate toSchema
            (constRegistry (some [sampleRepo "a1", sampleRepo "b2"], none)
              (sampleRepo "a1", none) none)
            (sampleRequest "" "" true)).diags = true :=
  ⟨rfl,
    (create_many_results_diagnostic_is_error toSchema
      (constRegistry (some [sampleRepo "a1", sampleRepo "b2"], none) (sampleRepo "a1", none)
        none)
      (sampleRequest "" "" true) (sampleRepo "a1") (sampleRepo "b2") [] rfl).2.1⟩

/-- C6, counterexample: the registry installs the two results `a1` and `b2` and
the projection of `a1` emits nothing, yet the only diagnostic Create returns has
error severity, not warning, and the returned diagnostics contain an error. -/
theorem create_many_results_counterexample :
    (toSchema (sampleRepo "a1") (sampleRequest "" "" true)).1 = []
      ∧ (resourceRepositoryCreate toSchema
            (constRegistry (some [sampleRepo "a1", sampleRepo "b2"], none)
              (sampleRepo "a1", none) none)
            (sampleRequest "" "" true)).diags
          = [{ Severity := diag.Severity.Error,
               Summary := "Unexpected number of repositories created: 2",
               Detail := "Repository IDs: [a1 b2]" }]
      ∧ diag.Severity.Error ≠ diag.Severity.Warning
      ∧ diag.HasError (resourceRepositoryCreate toSchema
            (constRegistry (some [sampleRepo "a1", sampleRepo "b2"], none)
              (sampleRepo "a1", none) none)
            (sampleRequest "" "" true)).diags = true := by
  refine ⟨rfl, by decide, by decide, by decide⟩

/-- C7: when Install returns an error e, with whatever result list, Create
returns exactly one error diagnostic whose summary is e; the projection is not
invoked and the resource data is unchanged. -/
theorem create_install_error_propagated (proj : Projection) (g : GalaxyInstance)
    (d : ResourceData) (repos : Option (List Repository)) (e : String)
    (h : installAnswer g d = (repos, some e)) :
    (resourceRepositoryCreate proj g d).diags
        = [{ Severity := diag.Severity.Error, Summary := e, Detail := "" }]
      ∧ (resourceRepositoryCreate proj g d).trace.projected = []
      ∧ (resourceRepositoryCreate proj g d).data = d := by
  rw [create_of_error proj g d repos e h]
  exact ⟨rfl, rfl, rfl⟩

/-- C7, witness: the registry answers an error together with a result. -/
theorem create_install_error_propagated_witness :
    installAnswer
        (constRegistry (some [sampleRepo "a1"], some "403 Forbidden") (sampleRepo "a1", none)
          none)
        (sampleRequest "" "" true) = (some [sampleRepo "a1"], some "403 Forbidden")
      ∧ (resourceRepositoryCreate toSchema
            (constRegistry (some [sampleRepo "a1"], some "403 Forbidden")
              (sampleRepo "a1", none) none)
            (sampleRequest "" "" true)).diags
          = [{ Severity := diag.Severity.Error, Summary := "403 Forbidden", Detail := "" }]
      ∧ (resourceRepositoryCreate toSchema
            (constRegistry (some [sampleRepo "a1"], some "403 Forbidden")
              (sampleRepo "a1", none) none)
            (sampleRequest "" "" true)).data = sampleRequest "" "" true :=
  ⟨rfl,
    (create_install_error_propagated toSchema
      (constRegistry (some [sampleRepo "a1"], some "403 Forbidden") (sampleRepo "a1", none)
        none)
      (sampleRequest "" "" true) (some [sampleRepo "a1"]) "403 Forbidden" rfl).1,
    (create_install_error_propagated toSchema
      (constRegistry (some [sampleRepo "a1"], some "403 Forbidden") (sampleRepo "a1", none)
        none)
      (sampleRequest "" "" true) (some [sampleRepo "a1"]) "403 Forbidden" rfl).2.2⟩

/-! ## Read -/

/-- A stored state: the `devteam/fastqc` request after result `a1` was projected
onto it. -/
def sampleStored (removeFromDisk : Bool) : ResourceData :=
  (toSchema (sampleRepo "a1") (sampleRequest "" "" removeFromDisk)).2

/-- C8: Read issues exactly one registry call, a Get with the stored id. If
that call returns an error, Read returns exactly one error diagnostic carrying
it, projects nothing and leaves the resource data unchanged; if it succeeds
with result R, Read returns the diagnostics of projecting R onto the resource
data and leaves the projected data behind. -/
theorem read_gets_stored_id (proj : Projection) (g : GalaxyInstance) (d : ResourceData) :
    (resourceRepositoryRead proj g d).trace.calls = [Call.Get d.id]
      ∧ (∀ R e, g.get d.id = (R, some e) →
          (resourceRepositoryRead proj g d).diags
              = [{ Severity := diag.Severity.Error, Summary := e, Detail := "" }]
            ∧ (resourceRepositoryRead proj g d).trace.projected = []
            ∧ (resourceRepositoryRead proj g d).data = d)
      ∧ (∀ R, g.get d.id = (R, none) →
          (resourceRepositoryRead proj g d).diags = (proj R d).1
            ∧ (resourceRepositoryRead proj g d).trace.projected = [R]
            ∧ (resourceRepositoryRead proj g d).data = (proj R d).2) := by
  refine ⟨?_, ?_, ?_⟩
  · rcases hG : g.get d.id with ⟨R, err⟩
    cases err with
    | none => rw [read_of_success proj g d R hG]
    | some e => rw [read_of_error proj g d R e hG]
  · intro R e hG
    rw [read_of_error proj g d R e hG]
    exact ⟨rfl, rfl, rfl⟩
  · intro R hG
    rw [read_of_success proj g d R hG]
    exact ⟨rfl, rfl, rfl⟩

/-- C8, witness: a Get that fails with not-found, and a Get that succeeds. -/
theorem read_gets_stored_id_witness :
    ((resourceRepositoryRead toSchema
          (constRegistry (none, none) (sampleRepo "", some "404 Not Found") none)
          (sampleStored true)).trace.calls = [Call.Get "a1"]
        ∧ (resourceRepositoryRead toSchema
          (constRegistry (none, none) (sampleRepo "", some "404 Not Found") none)
          (sampleStored true)).diags
            = [{ Severity := diag.Severity.Error, Summary := "404 Not Found", Detail := "" }]
        ∧ (resourceRepositoryRead toSchema
          (constRegistry (none, none) (sampleRepo "", some "404 Not Found") none)
          (sampleStored true)).data = sampleStored true)
      ∧ (resourceRepositoryRead toSchema
          (constRegistry (none, none) (sampleRepo "a1", none) none)
          (sampleStored true)).data = (toSchema (sampleRepo "a1") (sampleStored true)).2 :=
  ⟨⟨(read_gets_stored_id toSchema
        (constRegistry (none, none) (sampleRepo "", some "404 Not Found") none)
        (sampleStored true)).1,
      ((read_gets_stored_id toSchema
        (constRegistry (none, none) (sampleRepo "", some "404 Not Found") none)
        (sampleStored true)).2.1 (sampleRepo "") "404 Not Found" rfl).1,
      ((read_gets_stored_id toSchema
        (constRegistry (none, none) (sampleRepo "", some "404 Not Found") none)
        (sampleStored true)).2.1 (sampleRepo "") "404 Not Found" rfl).2.2⟩,
    ((read_gets_stored_id toSchema
      (constRegistry (none, none) (sampleRepo "a1", none) none)
      (sampleStored true)).2.2 (sampleRepo "a1") rfl).2.2⟩

/-! ## Delete -/

/-- C9: Delete issues exactly one registry call, an Uninstall with the stored
id and the stored remove_from_disk value as it is, projects nothing and leaves
the resource data unchanged; it returns no diagnostics if and only if that call
succeeds, and on an error exactly one error diagnostic carrying it. -/
theorem delete_uninstalls_with_stored_flag (g : GalaxyInstance) (d : ResourceData) :
    (resourceRepositoryDelete g d).trace.calls = [Call.UninstallID d.id d.remove_from_disk]
      ∧ (d.remove_from_disk = false →
          (resourceRepositoryDelete g d).trace.calls = [Call.UninstallID d.id false])
      ∧ (resourceRepositoryDelete g d).trace.projected = []
      ∧ (resourceRepositoryDelete g d).data = d
      ∧ ((resourceRepositoryDelete g d).diags = []
          ↔ g.uninstallID d.id d.remove_from_disk = none)
      ∧ (∀ e, g.uninstallID d.id d.remove_from_disk = some e →
          (resourceRepositoryDelete g d).diags
            = [{ Severity := diag.Severity.Error, Summary := e, Detail := "" }]) := by
  cases hU : g.uninstallID d.id d.remove_from_disk with
  | none =>
    rw [delete_of_success g d hU]
    refine ⟨rfl, ?_, rfl, rfl, by simp, by simp⟩
    intro hb
    rw [hb]
  | some e =>
    rw [delete_of_error g d e hU]
    refine ⟨rfl, ?_, rfl, rfl, by simp, by simp⟩
    intro hb
    rw [hb]

/-- C9, witness: a stored state with remove_from_disk false, against an
Uninstall that fails. -/
theorem delete_uninstalls_with_stored_flag_witness :
    (sampleStored false).remove_from_disk = false
      ∧ (resourceRepositoryDelete
          (constRegistry (none, none) (sampleRepo "a1", none) (some "500 Server Error"))
          (sampleStored false)).trace.calls = [Call.UninstallID "a1" false]
      ∧ (resourceRepositoryDelete
          (constRegistry (none, none) (sampleRepo "a1", none) (some "500 Server Error"))
          (sampleStored false)).diags
        = [{ Severity := diag.Severity.Error, Summary := "500 Server Error", Detail := "" }] :=
  ⟨rfl,
    (delete_uninstalls_with_stored_flag
      (constRegistry (none, none) (sampleRepo "a1", none) (some "500 Server Error"))
      (sampleStored false)).2.1 rfl,
    (delete_uninstalls_with_stored_flag
      (constRegistry (none, none) (sampleRepo "a1", none) (some "500 Server Error"))
      (sampleStored false)).2.2.2.2.2 "500 Server Error" rfl⟩

/-! ## Create then Read -/

/-- C10: round trip, with the projection of section 4.3. When the Install call
of Create succeeds with a non-empty list R :: rest, and the Get of the registry
for the identifier Create wrote returns R again, the Read issued on the state
Create wrote asks for exactly that identifier, returns no diagnostics, and
leaves a state equal to the state written by Create. -/
theorem create_then_read_roundtrip (g : GalaxyInstance) (d : ResourceData) (R : Repository)
    (rest : List Repository) (h : installAnswer g d = (some (R :: rest), none))
    (hget : g.get (resourceRepositoryCreate toSchema g d).data.id = (R, none)) :
    (resourceRepositoryRead toSchema g (resourceRepositoryCreate toSchema g d).data).data
        = (resourceRepositoryCreate toSchema g d).data
      ∧ (resourceRepositoryRead toSchema g (resourceRepositoryCreate toSchema g d).data).diags
        = []
      ∧ (resourceRepositoryRead toSchema g
          (resourceRepositoryCreate toSchema g d).data).trace.calls = [Call.Get R.GetID] := by
  have hdata : (resourceRepositoryCreate toSchema g d).data = (toSchema R d).2 := by
    cases rest with
    | nil => rw [create_of_one toSchema g d R h]
    | cons R2 rest2 => rw [create_of_many toSchema g d R R2 rest2 h]
  rw [hdata] at hget ⊢
  rw [read_of_success toSchema g (toSchema R d).2 R hget]
  refine ⟨toSchema_idem R d, rfl, ?_⟩
  simp [toSchema_id, Repository.GetID]

/-- C10, witness: Create installs the single result `a1`, and Get returns it. -/
theorem create_then_read_roundtrip_witness :
    installAnswer (constRegistry (some [sampleRepo "a1"], none) (sampleRepo "a1", none) none)
        (sampleRequest "" "" true) = (some [sampleRepo "a1"], none)
      ∧ (resourceRepositoryRead toSchema
          (constRegistry (some [sampleRepo "a1"], none) (sampleRepo "a1", none) none)
          (resourceRepositoryCreate toSchema
            (constRegistry (some [sampleRepo "a1"], none) (sampleRepo "a1", none) none)
            (sampleRequest "" "" true)).data).data
        = (resourceRepositoryCreate toSchema
            (constRegistry (some [sampleRepo "a1"], none) (sampleRepo "a1", none) none)
            (sampleRequest "" "" true)).data :=
  ⟨rfl,
    (create_then_read_roundtrip
      (constRegistry (some [sampleRepo "a1"], none) (sampleRepo "a1", none) none)
      (sampleRequest "" "" true) (sampleRepo "a1") [] rfl rfl).1⟩

end Galaxy
